import Mathlib

/-!
Shallow embedding of `backend/fetch_sales.py` (repository ALAAWF2/dailysales).

The script fetches point-of-sale transactions from an OData API, aggregates
them per outlet over several time windows, enriches them with an Excel
reference mapping, writes a JSON snapshot and pushes it to a git remote.

Modelling conventions:
- pandas float64 amounts are modelled as unnormalized exact fractions
  (`Frac`), addition and truncation being the operations the script uses;
- pandas `NaN` cells are `Option.none`; `pd.to_numeric(errors="coerce")`
  maps non-numeric cells to `none` (numeric string literals are outside the
  modelled cell-value space, no claim exercises them);
- Python string `.strip()` / `.lower()` are re-implemented on character
  lists (`pyStrip` / `pyLower`) so that concrete instances can be decided
  by the kernel;
- timestamps are integers (any fixed time unit);
- each `requests.get` / `subprocess.run` result is an input of the model,
  so the control flow around those calls is embedded exactly.
-/

namespace DailySales

/-- Unnormalized fraction: the exact-number model of a Python float. -/
structure Frac where
  num : Int
  den : Nat
  deriving DecidableEq

/-- Exact addition of fractions (no normalization). -/
def fadd (a b : Frac) : Frac :=
  ⟨a.num * (b.den : Int) + b.num * (a.den : Int), a.den * b.den⟩

/-- Sum of a list of fractions, as pandas `.sum()` over a numeric column. -/
def fsum (l : List Frac) : Frac := l.foldr fadd ⟨0, 1⟩

/-- Python `int()` on a float: truncation toward zero. -/
def pyInt (q : Frac) : Int := q.num.tdiv (q.den : Int)

/-- The whitespace test used by `pyStrip` (the characters Python
`str.strip()` removes that can occur in this data). -/
def isWS (c : Char) : Bool := c = ' ' || c = '\t' || c = '\n' || c = '\r'

/-- Python `str.strip()`. -/
def pyStrip (s : String) : String :=
  ⟨((s.data.dropWhile isWS).reverse.dropWhile isWS).reverse⟩

/-- Python `str.lower()`. -/
def pyLower (s : String) : String := ⟨s.data.map Char.toLower⟩

/-- `n.isPrefixOf h || subAt n h.tail`: does `n` occur as a contiguous
sublist of `h`?  (Python `needle in hay`.) -/
def subAt (n : List Char) : List Char → Bool
  | [] => n.isEmpty
  | c :: t => if n.isPrefixOf (c :: t) then true else subAt n t

/-- Python substring test `needle in hay`. -/
def strContains (hay needle : String) : Bool := subAt needle.data hay.data

/-- Lexicographic order on character lists (Python string comparison,
used by pandas when sorting group keys). -/
def lexLe : List Char → List Char → Bool
  | [], _ => true
  | _ :: _, [] => false
  | a :: as, b :: bs => if a < b then true else if b < a then false else lexLe as bs

/-- String comparison for sorting. -/
def strLe (a b : String) : Bool := lexLe a.data b.data

/-- Insert `x` into `l` keeping `le`-sorted order (stable: `x` goes before
the first element it is `le`-related to). -/
def insertIn {α : Type} (le : α → α → Bool) (x : α) : List α → List α
  | [] => [x]
  | y :: ys => if le x y then x :: y :: ys else y :: insertIn le x ys

/-- Insertion sort; the deterministic stand-in for pandas sorting (the
source leaves the order of ties unspecified). -/
def isort {α : Type} (le : α → α → Bool) : List α → List α
  | [] => []
  | x :: xs => insertIn le x (isort le xs)

/-- Unique values of a list of keys (order irrelevant: the callers sort). -/
def uniq : List String → List String
  | [] => []
  | k :: ks => if ks.contains k then uniq ks else k :: uniq ks

/-- A raw cell value: a number or a non-numeric scalar. -/
inductive Val where
  | num (q : Frac)
  | str (s : String)
  deriving DecidableEq

/-- `pd.to_numeric(errors="coerce")` on one cell: numbers pass through,
anything else becomes `NaN` (`none`). -/
def pyToNumeric : Val → Option Frac
  | .num q => some q
  | .str _ => none

/-- One fetched transaction row (`$select=OperatingUnitNumber,
PaymentAmount,TransactionDate`).  `PaymentAmount` is `none` when the field
is absent (`NaN` after `DataFrame` construction). -/
structure Rec where
  OperatingUnitNumber : String
  PaymentAmount : Option Val
  TransactionDate : Int
  deriving DecidableEq

/-- `df["store"] = df["OperatingUnitNumber"].astype(str).str.strip()`. -/
def storeKey (r : Rec) : String := pyStrip r.OperatingUnitNumber

/-- The numeric amount of a row after
`pd.to_numeric(df["PaymentAmount"], errors="coerce").fillna(0)`. -/
def amtVal (r : Rec) : Frac := (r.PaymentAmount.bind pyToNumeric).getD ⟨0, 1⟩

/-- `df.groupby("store").agg(sales=("PaymentAmount","sum"))` group sum for
one key. -/
def storeSum (df : List Rec) (k : String) : Frac :=
  fsum ((df.filter (fun r => storeKey r == k)).map amtVal)

/-- The group keys of `df.groupby("store")` (unique stores, sorted
ascending — pandas `groupby` default `sort=True`). -/
def storeKeys (df : List Rec) : List String :=
  isort strLe (uniq (df.map storeKey))

/-- One row of the grouped frame (`store`, `sales`). -/
structure Group where
  store : String
  sales : Frac
  deriving DecidableEq

/-- The grouped frame `grouped` of `process_group`. -/
def groups (df : List Rec) : List Group :=
  (storeKeys df).map (fun k => ⟨k, storeSum df k⟩)

/-- One row of the loaded mapping frame after renaming
(`store_id`, `store_name`, and the optional columns; `none` = `NaN` or
column absent). -/
structure RefRow where
  store_id : String
  store_name : Option String
  target : Option Val
  city : Option String
  area : Option String
  deriving DecidableEq

/-- The mapping frame returned by `load_mapping`: its rows plus which of
the optional columns exist in the frame. -/
structure Mapping where
  hasTarget : Bool
  hasCity : Bool
  hasArea : Bool
  rows : List RefRow
  deriving DecidableEq

/-- A row of the merged frame of `process_group` after the left join, the
`fillna` calls and the `target` coercion.  `none` in `city`/`area`/`target`
means the column does not exist in the frame. -/
structure GRow where
  store : String
  sales : Frac
  outlet : String
  city : Option String
  area : Option String
  target : Option Frac
  deriving DecidableEq

/-- The merged rows a single group produces under
`grouped.merge(mapping_df, left_on="store", right_on="store_id",
how="left")` followed by the `outlet`/`city`/`area`/`target` column
updates: an unmatched group keeps one row with `NaN` reference fields
(then filled with defaults); a matched group yields one row per matching
reference row. -/
def mergeRow (m : Mapping) (g : Group) (rr : Option RefRow) : GRow :=
  { store := g.store
    sales := g.sales
    outlet := (rr.bind (fun x => x.store_name)).getD g.store
    city := if m.hasCity then some ((rr.bind (fun x => x.city)).getD "Unknown") else none
    area := if m.hasArea then some ((rr.bind (fun x => x.area)).getD "Unknown") else none
    target :=
      if m.hasTarget then
        some (((rr.bind (fun x => x.target)).bind pyToNumeric).getD ⟨0, 1⟩)
      else none }

/-- The join rows one group yields: one default row when no reference row
matches, else one row per matching reference row. -/
def mergeGroup (m : Mapping) (g : Group) : List GRow :=
  let ms := m.rows.filter (fun rr => rr.store_id == g.store)
  if ms.isEmpty then [mergeRow m g none] else ms.map (fun rr => mergeRow m g (some rr))

/-- The merged frame of `process_group`: with a mapping, the left join;
without one, the `else` branch `outlet = store`, `city = area =
"Unknown"`, `target = 0`. -/
def mergedRows (df : List Rec) (mapping : Option Mapping) : List GRow :=
  match mapping with
  | none => (groups df).map (fun g => ⟨g.store, g.sales, g.store, some "Unknown", some "Unknown", some ⟨0, 1⟩⟩)
  | some m => (groups df).flatMap (mergeGroup m)

/-- One emitted result row (`target` is `none` when the key is absent,
i.e. for the non-MTD windows). -/
structure Item where
  outlet : String
  sales : Int
  city : String
  area : String
  target : Option Int
  deriving DecidableEq

/-- The dict built per row in the `iterrows` loop of `process_group`:
`int(...)` truncation on `sales`, `r.get(...)` defaults on `city`/`area`,
and `target` only when `is_mtd`. -/
def emit (is_mtd : Bool) (g : GRow) : Item :=
  { outlet := g.outlet
    sales := pyInt g.sales
    city := g.city.getD "Unknown"
    area := g.area.getD "Unknown"
    target := if is_mtd then some (pyInt (g.target.getD ⟨0, 1⟩)) else none }

/-- `grouped.sort_values("sales", ascending=False)` comparison. -/
def salesDesc (a b : GRow) : Bool :=
  b.sales.num * (a.sales.den : Int) ≤ a.sales.num * (b.sales.den : Int)

/-- `process_group(df, mapping_df=None, is_mtd=False)` of
`backend/fetch_sales.py`: empty-frame short-circuit, store normalization,
amount coercion, group-sum, left-join enrichment, descending sort on
`sales`, emission. -/
def process_group (df : List Rec) (mapping : Option Mapping) (is_mtd : Bool) : List Item :=
  if df.isEmpty then []
  else (isort salesDesc (mergedRows df mapping)).map (emit is_mtd)

/-- The three records of spec scenario A (timestamps are hours of
2024-03-01). -/
def recsA : List Rec :=
  [ ⟨"S1", some (.num ⟨100, 1⟩), 8⟩
  , ⟨"S1", some (.num ⟨50, 1⟩), 9⟩
  , ⟨"S2", some (.num ⟨30, 1⟩), 10⟩ ]

/-- C1: for records [(S1,100),(S1,50),(S2,30)] of one day and no
reference data, `process_group` returns exactly S1 with sales 150 then S2
with sales 30, city and area defaulted to "Unknown", ordered by
descending sales (and no `target` field since the window is not MTD). -/
theorem process_group_scenarioA :
    process_group recsA none false =
      [ ⟨"S1", 150, "Unknown", "Unknown", none⟩
      , ⟨"S2", 30, "Unknown", "Unknown", none⟩ ] := by
  decide

/-- A fetch failure: a `requests` transport exception or the HTTP error
`raise_for_status()` raises on a non-2xx page. -/
structure FetchErr where
  msg : String
  deriving DecidableEq

/-- One successful OData page: its `value` rows and whether the response
carries an `@odata.nextLink`. -/
structure Page where
  value : List Rec
  nextLink : Bool
  deriving DecidableEq

/-- The `while query_url:` pagination loop shared by both fetch
functions: follow the cursor, extend `rows`, and let any page error
propagate (the locally accumulated `rows` are lost).  The input list is
the sequence of server responses to the successive requests; a server
that announces a next link but gives no further response would hang the
real loop, the model then returns the accumulated rows. -/
def fetchPagesFrom : List (Except FetchErr Page) → List Rec → Except FetchErr (List Rec)
  | [], acc => .ok acc
  | .error e :: _, _ => .error e
  | .ok p :: rest, acc =>
    if p.nextLink then fetchPagesFrom rest (acc ++ p.value) else .ok (acc ++ p.value)

/-- `fetch_sales_mtd_range`: run the pagination loop from an empty `rows`
accumulator. -/
def fetch_sales_mtd_range (pages : List (Except FetchErr Page)) : Except FetchErr (List Rec) :=
  fetchPagesFrom pages []

/-- `fetch_sales_last_two_days`: textually the same loop as
`fetch_sales_mtd_range`, only the query window differs. -/
def fetch_sales_last_two_days (pages : List (Except FetchErr Page)) : Except FetchErr (List Rec) :=
  fetchPagesFrom pages []

/-- A cell of the Excel reference sheet: `none` is an empty cell
(`NaN`). -/
abbrev CellVal : Type := Option Val

/-- One raw row of `mapping.xlsx`, keyed by the original headers. -/
abbrev RawRow : Type := List (String × CellVal)

/-- The raw reference sheet as `pd.read_excel` sees it. -/
structure RawTable where
  headers : List String
  rows : List RawRow

/-- Header normalization
`df.columns = df.columns.str.lower().str.strip()`. -/
def normHeader (h : String) : String := pyStrip (pyLower h)

/-- Cell access on the frame whose columns were normalized in place. -/
def getCell (row : RawRow) (c : String) : CellVal :=
  ((row.find? (fun kv => normHeader kv.1 == c)).map (fun kv => kv.2)).getD none

/-- `next((c for c in df.columns if "store" in c and "number" in c),
None)`. -/
def findStoreCol (headers : List String) : Option String :=
  (headers.map normHeader).find? (fun c => strContains c "store" && strContains c "number")

/-- `next((c for c in df.columns if "outlet" in c or "name" in c),
None)`. -/
def findNameCol (headers : List String) : Option String :=
  (headers.map normHeader).find? (fun c => strContains c "outlet" || strContains c "name")

/-- `str(cell)` for the store-identifier column (`astype(str)`); the
exact Python float formatting of numeric cells is not modelled (no claim
exercises a numeric store id). -/
def cellToStr : CellVal → String
  | none => "nan"
  | some (.str s) => s
  | some (.num q) => toString q.num

/-- A cell read as an optional display string (`NaN` stays `NaN`, numeric
cells stringify when displayed). -/
def cellToName : CellVal → Option String
  | none => none
  | some (.str s) => some s
  | some (.num q) => some (toString q.num)

/-- The renamed mapping frame built once the mandatory columns `sc`
(store) and `nc` (name) are found: `store_id` trimmed via
`astype(str).str.strip()`, the optional `target`/`city`/`area` columns
included when substring-discovered. -/
def mkMapping (t : RawTable) (sc nc : String) : Mapping :=
  let cols := t.headers.map normHeader
  let target_col := cols.find? (fun c => strContains c "target")
  let city_col := cols.find? (fun c => strContains c "city")
  let area_col := cols.find? (fun c => strContains c "area")
  { hasTarget := target_col.isSome
    hasCity := city_col.isSome
    hasArea := area_col.isSome
    rows := t.rows.map (fun row =>
      { store_id := pyStrip (cellToStr (getCell row sc))
        store_name := cellToName (getCell row nc)
        target := match target_col with
          | some tc => getCell row tc
          | none => none
        city := match city_col with
          | some cc => cellToName (getCell row cc)
          | none => none
        area := match area_col with
          | some ac => cellToName (getCell row ac)
          | none => none }) }

/-- `load_mapping()` of `backend/fetch_sales.py`: `none` for a missing
file; heuristic column discovery on normalized headers; `none` when the
store or name column is not found; otherwise the renamed frame of
`mkMapping`. -/
def load_mapping (file : Option RawTable) : Option Mapping :=
  match file with
  | none => none
  | some t =>
    match findStoreCol t.headers, findNameCol t.headers with
    | some sc, some nc => some (mkMapping t sc nc)
    | _, _ => none

/-- `df_today = df_all[df_all["TransactionDate"] >= today_start]`. -/
def filterToday (df : List Rec) (today_start : Int) : List Rec :=
  df.filter (fun r => decide (today_start ≤ r.TransactionDate))

/-- `df_yesterday`: rows with `yesterday_start <= TransactionDate <
today_start`. -/
def filterYesterday (df : List Rec) (yesterday_start today_start : Int) : List Rec :=
  df.filter (fun r =>
    decide (yesterday_start ≤ r.TransactionDate) && decide (r.TransactionDate < today_start))

/-- The rest-of-month partition implicit in `main` (`df_all` rows in
neither `df_today` nor `df_yesterday`): rows before `yesterday_start`. -/
def filterRest (df : List Rec) (yesterday_start : Int) : List Rec :=
  df.filter (fun r => decide (r.TransactionDate < yesterday_start))

/-- The JSON payload `export_json` writes (the run metadata `date` /
`lastUpdate` strings are wall-clock output, not modelled). -/
structure Payload where
  today : List Item
  yesterday : List Item
  mtd : List Item
  cities : List String
  areas : List String
  deriving DecidableEq

/-- `export_json([], [], [], [], [])`. -/
def emptyPayload : Payload := ⟨[], [], [], [], []⟩

/-- `sorted(list(set(mapping_df["city"].dropna().unique())))` (empty when
no mapping or no city column). -/
def citiesOf (mapping : Option Mapping) : List String :=
  match mapping with
  | none => []
  | some m => if m.hasCity then isort strLe (uniq (m.rows.filterMap (fun rr => rr.city))) else []

/-- Same as `citiesOf` for the `area` column. -/
def areasOf (mapping : Option Mapping) : List String :=
  match mapping with
  | none => []
  | some m => if m.hasArea then isort strLe (uniq (m.rows.filterMap (fun rr => rr.area))) else []

/-- `main()` of `backend/fetch_sales.py` after token acquisition, up to
`export_json`: an uncaught fetch exception propagates (`.error`, no file
written); an empty fetched frame exports the empty payload before
`load_mapping` is even called; otherwise the three windows are cut from
the one fetched frame and aggregated.  `today_start` and `oneDay` stand
for the run instant's midnight and `timedelta(days=1)`. -/
def main (fetchRes : Except FetchErr (List Rec)) (file : Option RawTable)
    (today_start oneDay : Int) : Except FetchErr Payload :=
  match fetchRes with
  | .error e => .error e
  | .ok df_all =>
    if df_all.isEmpty then .ok emptyPayload
    else
      let mapping := load_mapping file
      let yesterday_start := today_start - oneDay
      .ok
        { today := process_group (filterToday df_all today_start) mapping false
          yesterday := process_group (filterYesterday df_all yesterday_start today_start) mapping false
          mtd := process_group df_all mapping true
          cities := citiesOf mapping
          areas := areasOf mapping }

/-- The git subprocesses `push_to_github` runs, in source order. -/
inductive GitOp where
  | configEmail
  | configName
  | getUrl
  | remoteList
  | setUrl
  | addRemote
  | fetchOrigin
  | checkout
  | add
  | status
  | commit
  | push
  deriving DecidableEq

/-- The environment a `push_to_github` run observes: the two environment
variables, the `.git` existence check, and the result of each subprocess
(`Except` errors model a `check=True` call raising
`CalledProcessError`). -/
structure PushEnv where
  github_token : Option String
  repo_url_env : Option String
  dotGit : Bool
  configEmailRes : Except String Unit
  configNameRes : Except String Unit
  getUrlRes : Except String String
  remotes : List String
  setUrlRes : Except String Unit
  addRemoteRes : Except String Unit
  fetchRes : Except String Unit
  dataJson : String
  checkoutRes : Except String Unit
  addRes : Except String Unit
  statusOut : String
  commitRes : Except String Unit
  pushRes : Except String Unit

/-- What one `push_to_github` call does.  `caughtLogged` is the outer
`except Exception` handler: the failure is printed and the function
returns normally.  `raised` — an exception propagating to the caller —
is part of the outcome type so the spec's contract can be stated against
the model; the model never produces it. -/
inductive PushOutcome where
  | skippedNoToken
  | skippedNotRepo
  | skippedNoUrl
  | skippedNoChanges
  | pushed
  | caughtLogged (msg : String)
  | raised (msg : String)
  deriving DecidableEq

/-- `clean_url` computation of `push_to_github`: strip the protocol, and
keep what follows the last `@`. -/
def clean_url_of (repo_url : String) : String :=
  let s := (repo_url.replace "https://" "").replace "http://" ""
  (s.splitOn "@").getLast?.getD s

/-- The authenticated remote URL (`https://{token}@{clean_url}`). -/
def remote_with_token (token repo_url : String) : String :=
  "https://" ++ token ++ "@" ++ clean_url_of repo_url

/-- `push_to_github` from the `git remote` listing on: configure the
`origin` URL, fetch, re-read the fresh `data.json`, hard-reset onto
`origin/main`, restore the file, stage it, porcelain diff-check, commit
and push.  Any `check=True` failure falls into the outer handler
(`caughtLogged`).  The returned list is the trace of git subprocesses
actually run. -/
def push_after_url (env : PushEnv) (tr : List GitOp) : PushOutcome × List GitOp :=
  let tr1 := tr ++ [GitOp.remoteList]
  let urlStep := if env.remotes.contains "origin" then (env.setUrlRes, tr1 ++ [GitOp.setUrl])
    else (env.addRemoteRes, tr1 ++ [GitOp.addRemote])
  match urlStep with
  | (.error m, tr2) => (.caughtLogged m, tr2)
  | (.ok _, tr2) =>
    match env.fetchRes with
    | .error m => (.caughtLogged m, tr2 ++ [GitOp.fetchOrigin])
    | .ok _ =>
      let tr3 := tr2 ++ [GitOp.fetchOrigin]
      match env.checkoutRes with
      | .error m => (.caughtLogged m, tr3 ++ [GitOp.checkout])
      | .ok _ =>
        let tr4 := tr3 ++ [GitOp.checkout]
        match env.addRes with
        | .error m => (.caughtLogged m, tr4 ++ [GitOp.add])
        | .ok _ =>
          let tr5 := tr4 ++ [GitOp.add, GitOp.status]
          if !strContains env.statusOut "data.json" then (.skippedNoChanges, tr5)
          else
            match env.commitRes with
            | .error m => (.caughtLogged m, tr5 ++ [GitOp.commit])
            | .ok _ =>
              match env.pushRes with
              | .error m => (.caughtLogged m, tr5 ++ [GitOp.commit, GitOp.push])
              | .ok _ => (.pushed, tr5 ++ [GitOp.commit, GitOp.push])

/-- `push_to_github()` of `backend/fetch_sales.py`: skip without a
`GITHUB_TOKEN`, skip outside a git repository, configure the bot user,
resolve the remote URL (skip when `origin` cannot be detected and no
`REPO_URL` is set), then the sync/commit/push sequence of
`push_after_url`. -/
def push_to_github (env : PushEnv) : PushOutcome × List GitOp :=
  match env.github_token with
  | none => (.skippedNoToken, [])
  | some _ =>
    if !env.dotGit then (.skippedNotRepo, [])
    else
      match env.configEmailRes with
      | .error m => (.caughtLogged m, [GitOp.configEmail])
      | .ok _ =>
        match env.configNameRes with
        | .error m => (.caughtLogged m, [GitOp.configEmail, GitOp.configName])
        | .ok _ =>
          match env.repo_url_env with
          | some _ => push_after_url env [GitOp.configEmail, GitOp.configName]
          | none =>
            match env.getUrlRes with
            | .error _ => (.skippedNoUrl, [GitOp.configEmail, GitOp.configName, GitOp.getUrl])
            | .ok _ => push_after_url env [GitOp.configEmail, GitOp.configName, GitOp.getUrl]

lemma fetchPagesFrom_error (e : FetchErr) (ps2 : List (Except FetchErr Page)) :
    ∀ (ps1 : List (Except FetchErr Page)),
      (∀ x ∈ ps1, ∃ p : Page, x = .ok p ∧ p.nextLink = true) →
      ∀ acc, fetchPagesFrom (ps1 ++ .error e :: ps2) acc = .error e := by
  intro ps1
  induction ps1 with
  | nil => intro _ acc; rfl
  | cons x xs ih =>
    intro h acc
    obtain ⟨p, rfl, hn⟩ := h x (List.mem_cons_self x xs)
    simp only [List.cons_append, fetchPagesFrom, hn, if_pos]
    exact ih (fun y hy => h y (List.mem_cons_of_mem _ hy)) (acc ++ p.value)

/-- C2: if the request for any page fails — also after one or more
successful pages that each announced a next link — the whole fetch call
evaluates to the error and returns no rows: the rows accumulated from the
earlier pages are discarded.  Holds for both fetch functions. -/
theorem fetch_failfast (ps1 : List (Except FetchErr Page)) (e : FetchErr)
    (ps2 : List (Except FetchErr Page))
    (h : ∀ x ∈ ps1, ∃ p : Page, x = .ok p ∧ p.nextLink = true) :
    fetch_sales_mtd_range (ps1 ++ .error e :: ps2) = .error e ∧
    fetch_sales_last_two_days (ps1 ++ .error e :: ps2) = .error e :=
  ⟨fetchPagesFrom_error e ps2 ps1 h [], fetchPagesFrom_error e ps2 ps1 h []⟩

/-- Witness for C2: a concrete successful first page followed by a
failing second request yields the error, not the page-1 rows. -/
theorem fetch_failfast_witness :
    fetch_sales_mtd_range [Except.ok ⟨[⟨"S1", some (.num ⟨100, 1⟩), 8⟩], true⟩,
        Except.error ⟨"connection reset"⟩] =
      Except.error ⟨"connection reset"⟩ :=
  (fetch_failfast [Except.ok ⟨[⟨"S1", some (.num ⟨100, 1⟩), 8⟩], true⟩]
    ⟨"connection reset"⟩ []
    (by intro x hx; simp only [List.mem_singleton] at hx; subst hx; exact ⟨_, rfl, rfl⟩)).1

/-- The concrete fetch failure used for C4. -/
def feErr : FetchErr := ⟨"HTTPError 500"⟩

/-- C4 counterexample: when the fetch fails, `main` propagates the
exception and does not write the empty-but-valid snapshot the claim
demands — the empty snapshot is only exported on a successful empty
fetch. -/
theorem main_fetch_failure_cex :
    main (Except.error feErr) none 10 5 = Except.error feErr ∧
    main (Except.error feErr) none 10 5 ≠ Except.ok emptyPayload := by
  refine ⟨rfl, ?_⟩
  intro h
  exact Except.noConfusion h

/-- C4 amended: on a fetch failure the error propagates out of `main`
uncaught (no snapshot is written; the process dies with a traceback and a
non-zero exit status), while the empty-but-valid snapshot is written
exactly when the fetch succeeds with zero rows. -/
theorem main_fetch_failure_amended :
    (∀ (e : FetchErr) (file : Option RawTable) (ts d : Int),
      main (.error e) file ts d = .error e) ∧
    (∀ (file : Option RawTable) (ts d : Int),
      main (.ok []) file ts d = .ok emptyPayload) :=
  ⟨fun _ _ _ _ => rfl, fun _ _ _ => rfl⟩

/-- C5: computed from one instant over one fetched month-to-date frame,
the `today` and `yesterday` partitions (and the implicit rest-of-month
remainder) are subsets of the frame, each record of the frame lands in
exactly one of the three, and their union is the frame. -/
theorem windows_tile (df : List Rec) (month_start today_start oneDay : Int)
    (hd : 0 ≤ oneDay)
    (_hwin : ∀ r ∈ df, month_start ≤ r.TransactionDate ∧
      r.TransactionDate < today_start + oneDay) :
    (∀ r ∈ filterToday df today_start, r ∈ df) ∧
    (∀ r ∈ filterYesterday df (today_start - oneDay) today_start, r ∈ df) ∧
    (∀ r ∈ filterRest df (today_start - oneDay), r ∈ df) ∧
    (∀ r ∈ df, r ∈ filterToday df today_start ∨
      r ∈ filterYesterday df (today_start - oneDay) today_start ∨
      r ∈ filterRest df (today_start - oneDay)) ∧
    (∀ r, ¬(r ∈ filterToday df today_start ∧
      r ∈ filterYesterday df (today_start - oneDay) today_start)) ∧
    (∀ r, ¬(r ∈ filterToday df today_start ∧ r ∈ filterRest df (today_start - oneDay))) ∧
    (∀ r, ¬(r ∈ filterYesterday df (today_start - oneDay) today_start ∧
      r ∈ filterRest df (today_start - oneDay))) := by
  refine ⟨?_, ?_, ?_, ?_, ?_, ?_, ?_⟩
  · intro r hr; exact (List.mem_filter.mp hr).1
  · intro r hr; exact (List.mem_filter.mp hr).1
  · intro r hr; exact (List.mem_filter.mp hr).1
  · intro r hr
    simp only [filterToday, filterYesterday, filterRest, List.mem_filter,
      Bool.and_eq_true, decide_eq_true_eq]
    by_cases h1 : today_start ≤ r.TransactionDate
    · exact Or.inl ⟨hr, h1⟩
    · by_cases h2 : today_start - oneDay ≤ r.TransactionDate
      · exact Or.inr (Or.inl ⟨hr, h2, by omega⟩)
      · exact Or.inr (Or.inr ⟨hr, by omega⟩)
  · rintro r ⟨h1, h2⟩
    obtain ⟨-, ha⟩ := List.mem_filter.mp h1
    obtain ⟨-, hb⟩ := List.mem_filter.mp h2
    simp only [Bool.and_eq_true, decide_eq_true_eq] at ha hb
    omega
  · rintro r ⟨h1, h2⟩
    obtain ⟨-, ha⟩ := List.mem_filter.mp h1
    obtain ⟨-, hb⟩ := List.mem_filter.mp h2
    simp only [decide_eq_true_eq] at ha hb
    omega
  · rintro r ⟨h1, h2⟩
    obtain ⟨-, ha⟩ := List.mem_filter.mp h1
    obtain ⟨-, hb⟩ := List.mem_filter.mp h2
    simp only [Bool.and_eq_true, decide_eq_true_eq] at ha hb
    omega

/-- Concrete frame for the C5 witness: one record in each window of the
month `[0, 15)` with `today_start = 10`, `oneDay = 5`. -/
def dfC5 : List Rec :=
  [ ⟨"A", some (.num ⟨1, 1⟩), 12⟩
  , ⟨"B", some (.num ⟨1, 1⟩), 7⟩
  , ⟨"C", some (.num ⟨1, 1⟩), 3⟩ ]

/-- Witness for C5: the record at hour 12 of the concrete frame lands in
one of the three windows. -/
theorem windows_tile_witness :
    (⟨"A", some (.num ⟨1, 1⟩), 12⟩ : Rec) ∈ filterToday dfC5 10 ∨
    (⟨"A", some (.num ⟨1, 1⟩), 12⟩ : Rec) ∈ filterYesterday dfC5 5 10 ∨
    (⟨"A", some (.num ⟨1, 1⟩), 12⟩ : Rec) ∈ filterRest dfC5 5 :=
  (windows_tile dfC5 0 10 5 (by decide) (by decide)).2.2.2.1
    ⟨"A", some (.num ⟨1, 1⟩), 12⟩ (by decide)

lemma load_mapping_none_of_col (t : RawTable)
    (h : findStoreCol t.headers = none ∨ findNameCol t.headers = none) :
    load_mapping (some t) = none := by
  cases hs : findStoreCol t.headers <;> cases hn : findNameCol t.headers <;>
    simp only [load_mapping] <;> rw [hs, hn] <;> try rfl
  rcases h with h | h
  · exact Option.noConfusion (hs.symm.trans h)
  · exact Option.noConfusion (hn.symm.trans h)

/-- `True` exactly on an `.ok` run result. -/
def isOk : Except FetchErr Payload → Bool
  | .ok _ => true
  | .error _ => false

/-- C6: reference loading returns `none` — a normal result, not an
error — both for a missing file and when a mandatory column cannot be
identified, and a run whose mapping came out `none` still completes with
a written snapshot. -/
theorem load_mapping_degrades :
    load_mapping none = none ∧
    (∀ t : RawTable, findStoreCol t.headers = none ∨ findNameCol t.headers = none →
      load_mapping (some t) = none) ∧
    (∀ (rows : List Rec) (file : Option RawTable) (ts d : Int),
      load_mapping file = none → isOk (main (.ok rows) file ts d) = true) := by
  refine ⟨rfl, fun t h => load_mapping_none_of_col t h, ?_⟩
  intro rows file ts d _
  by_cases h : rows.isEmpty <;> simp [main, h, isOk]

/-- The reference sheet used by the C6 witness: a store column but no
name column. -/
def tableNoName : RawTable := ⟨["Store Number"], []⟩

/-- Witness for C6: the concrete sheet with no name column loads as
`none` and the run with it still produces a snapshot. -/
theorem load_mapping_degrades_witness :
    load_mapping (some tableNoName) = none ∧
    isOk (main (Except.ok [⟨"S1", some (.num ⟨5, 1⟩), 8⟩]) (some tableNoName) 10 5) = true :=
  ⟨load_mapping_degrades.2.1 tableNoName (Or.inr (by decide)),
   load_mapping_degrades.2.2 [⟨"S1", some (.num ⟨5, 1⟩), 8⟩] (some tableNoName) 10 5
     (load_mapping_degrades.2.1 tableNoName (Or.inr (by decide)))⟩

/-- The reference sheet of the C3 counterexample: a header containing
"code", a display-name header, but no header containing both "store" and
"number". -/
def tableCode : RawTable := ⟨["Code", "Outlet Name"], []⟩

/-- C3 counterexample: the sheet whose identifier header is "Code" (and
which per the claim should therefore have its store column identified) is
rejected: `load_mapping` returns `none` — the source has no "code"
fallback. -/
theorem load_mapping_code_fallback_cex :
    load_mapping (some tableCode) = none ∧
    strContains (normHeader "Code") "code" = true := by
  exact ⟨by decide, by decide⟩

/-- C3 amended: the store-identifier column is the first
case/whitespace-normalized header containing both "store" and "number";
there is no "code" fallback — when no header contains both substrings the
mapper gives up and returns `none`, and conversely a successful load
implies such a header exists. -/
theorem load_mapping_store_col :
    (∀ t : RawTable,
      (∀ c ∈ t.headers.map normHeader,
        ¬(strContains c "store" = true ∧ strContains c "number" = true)) →
      load_mapping (some t) = none) ∧
    (∀ (t : RawTable) (m : Mapping), load_mapping (some t) = some m →
      ∃ c ∈ t.headers.map normHeader,
        strContains c "store" = true ∧ strContains c "number" = true) := by
  constructor
  · intro t h
    refine load_mapping_none_of_col t (Or.inl ?_)
    refine List.find?_eq_none.mpr ?_
    intro c hc
    simp only [Bool.and_eq_true]
    exact h c hc
  · intro t m hm
    cases hs : findStoreCol t.headers with
    | none =>
      rw [load_mapping_none_of_col t (Or.inl hs)] at hm
      exact Option.noConfusion hm
    | some sc =>
      refine ⟨sc, List.mem_of_find?_eq_some hs, ?_⟩
      have := List.find?_some hs
      rwa [Bool.and_eq_true] at this

/-- Witness for C3 (amended): the "Code"-headed sheet has no
store-and-number header, so loading it yields `none`. -/
theorem load_mapping_store_col_witness :
    load_mapping (some tableCode) = none :=
  load_mapping_store_col.1 tableCode (by decide)

lemma mem_insertIn {α : Type} (le : α → α → Bool) (x a : α) :
    ∀ l : List α, a ∈ insertIn le x l ↔ a = x ∨ a ∈ l := by
  intro l
  induction l with
  | nil => simp [insertIn]
  | cons y ys ih =>
    simp only [insertIn]
    split
    · simp [List.mem_cons]
    · simp only [List.mem_cons, ih]
      tauto

lemma mem_isort {α : Type} (le : α → α → Bool) (a : α) :
    ∀ l : List α, a ∈ isort le l ↔ a ∈ l := by
  intro l
  induction l with
  | nil => simp [isort]
  | cons x xs ih => simp [isort, mem_insertIn, ih, List.mem_cons]

lemma mem_groups {df : List Rec} {gr : Group} (h : gr ∈ groups df) :
    gr.store ∈ storeKeys df ∧ gr.sales = storeSum df gr.store := by
  obtain ⟨k, hk, rfl⟩ := List.mem_map.mp h
  exact ⟨hk, rfl⟩

lemma mem_mergeGroup {m : Mapping} {gr : Group} {g : GRow} (h : g ∈ mergeGroup m gr) :
    g.store = gr.store ∧ g.sales = gr.sales ∧
    ∃ rr? : Option RefRow, (∀ rr, rr? = some rr → rr ∈ m.rows) ∧
      g.target = (if m.hasTarget then
        some (((rr?.bind (fun x => x.target)).bind pyToNumeric).getD ⟨0, 1⟩) else none) := by
  by_cases hms : (m.rows.filter (fun rr => rr.store_id == gr.store)).isEmpty
  · simp only [mergeGroup, hms, if_pos, List.mem_singleton] at h
    subst h
    exact ⟨rfl, rfl, none, fun rr hrr => Option.noConfusion hrr, rfl⟩
  · simp only [mergeGroup, hms, if_neg, Bool.false_eq_true, not_false_eq_true,
      List.mem_map] at h
    obtain ⟨rr, hrr, rfl⟩ := h
    refine ⟨rfl, rfl, some rr, fun x hx => ?_, rfl⟩
    cases hx
    exact (List.mem_filter.mp hrr).1

lemma mem_mergedRows {df : List Rec} {mapping : Option Mapping} {g : GRow}
    (hg : g ∈ mergedRows df mapping) :
    g.store ∈ storeKeys df ∧ g.sales = storeSum df g.store := by
  cases mapping with
  | none =>
    obtain ⟨gr, hgr, rfl⟩ := List.mem_map.mp hg
    exact mem_groups hgr
  | some m =>
    obtain ⟨gr, hgr, hmg⟩ := List.mem_flatMap.mp hg
    obtain ⟨hst, hsl, -⟩ := mem_mergeGroup hmg
    rw [hst, hsl]
    exact mem_groups hgr

lemma mergedRows_none_target {df : List Rec} {g : GRow}
    (hg : g ∈ mergedRows df none) : g.target = some ⟨0, 1⟩ := by
  obtain ⟨gr, hgr, rfl⟩ := List.mem_map.mp hg
  rfl

lemma pyInt_zero : pyInt ⟨0, 1⟩ = 0 := rfl

/-- No usable target in the reference data: either there is no mapping,
or its frame has no target column, or no row's target cell is numeric. -/
def noTargetSource : Option Mapping → Prop
  | none => True
  | some m => m.hasTarget = false ∨ ∀ rr ∈ m.rows, rr.target.bind pyToNumeric = none

/-- C7: every emitted row's `sales` is the integer truncation of its
store's amount sum; a `target` key is present exactly on the
month-to-date view; and when present it is the integer truncation of the
joined target, defaulting to 0 whenever the reference provides no
(numeric) target. -/
theorem process_group_sales_and_target (df : List Rec) (mapping : Option Mapping)
    (is_mtd : Bool) (item : Item) (h : item ∈ process_group df mapping is_mtd) :
    (∃ g ∈ mergedRows df mapping,
      g.store ∈ storeKeys df ∧ g.sales = storeSum df g.store ∧
      item.sales = pyInt g.sales ∧
      item.target = (if is_mtd then some (pyInt (g.target.getD ⟨0, 1⟩)) else none)) ∧
    item.target.isSome = is_mtd ∧
    (is_mtd = true → noTargetSource mapping → item.target = some 0) := by
  unfold process_group at h
  by_cases hdf : df.isEmpty
  · simp [hdf] at h
  · simp only [hdf, Bool.false_eq_true, if_neg, not_false_eq_true, List.mem_map] at h
    obtain ⟨g, hgs, rfl⟩ := h
    have hg : g ∈ mergedRows df mapping := (mem_isort _ _ _).mp hgs
    obtain ⟨hks, hsum⟩ := mem_mergedRows hg
    refine ⟨⟨g, hg, hks, hsum, rfl, rfl⟩, by cases is_mtd <;> rfl, ?_⟩
    intro hmtd hnts
    subst hmtd
    show (if true = true then some (pyInt (g.target.getD ⟨0, 1⟩)) else none) = some 0
    rw [if_pos rfl]
    cases mapping with
    | none =>
      rw [mergedRows_none_target hg]
      exact congrArg some pyInt_zero
    | some m =>
      obtain ⟨gr, hgr, hmg⟩ := List.mem_flatMap.mp hg
      obtain ⟨-, -, rr?, hmem, htg⟩ := mem_mergeGroup hmg
      rcases hnts with hnt | hall
      · rw [htg, if_neg (by simp [hnt])]
        exact congrArg some pyInt_zero
      · rw [htg]
        cases hht : m.hasTarget with
        | false => rw [if_neg (by simp)]; exact congrArg some pyInt_zero
        | true =>
          rw [if_pos rfl]
          cases hrr : rr? with
          | none => simp [pyInt_zero]
          | some rr =>
            have : rr.target.bind pyToNumeric = none := hall rr (hmem rr hrr)
            simp [hrr, this, pyInt_zero]

/-- Witness for C7: on a single record of amount 7/2 with no mapping and
the MTD flag set, the emitted row is in the output, its `sales` is the
truncation 3, and its `target` defaults to `some 0`. -/
theorem process_group_sales_and_target_witness :
    (⟨"S1", 3, "Unknown", "Unknown", some 0⟩ : Item) ∈
      process_group [⟨" S1 ", some (.num ⟨7, 2⟩), 0⟩] none true ∧
    (⟨"S1", 3, "Unknown", "Unknown", some 0⟩ : Item).target = some 0 :=
  have hm : (⟨"S1", 3, "Unknown", "Unknown", some 0⟩ : Item) ∈
      process_group [⟨" S1 ", some (.num ⟨7, 2⟩), 0⟩] none true := by decide
  ⟨hm, (process_group_sales_and_target [⟨" S1 ", some (.num ⟨7, 2⟩), 0⟩] none true
      ⟨"S1", 3, "Unknown", "Unknown", some 0⟩ hm).2.2 rfl True.intro⟩

/-- `pd.to_numeric(..., errors="coerce").fillna(0)` applied record-wise:
the coerced record carries amount 0 when the original amount is missing
or non-numeric. -/
def coerceRec (r : Rec) : Rec :=
  { r with PaymentAmount := some (.num ((r.PaymentAmount.bind pyToNumeric).getD ⟨0, 1⟩)) }

lemma storeKeys_coerce (df : List Rec) : storeKeys (df.map coerceRec) = storeKeys df := by
  unfold storeKeys
  rw [List.map_map]
  rfl

lemma storeSum_coerce (df : List Rec) (k : String) :
    storeSum (df.map coerceRec) k = storeSum df k := by
  unfold storeSum
  rw [List.filter_map, List.map_map]
  rfl

lemma groups_coerce (df : List Rec) : groups (df.map coerceRec) = groups df := by
  unfold groups
  rw [storeKeys_coerce]
  simp only [storeSum_coerce]

lemma mergedRows_coerce (df : List Rec) (mapping : Option Mapping) :
    mergedRows (df.map coerceRec) mapping = mergedRows df mapping := by
  cases mapping <;> simp [mergedRows, groups_coerce]

/-- C10: aggregation is total on malformed amounts — replacing every
missing or non-numeric amount by the coerced value (0) changes nothing:
the output rows and the set of grouped stores are identical, so such
records are kept in the grouping and contribute nothing to their store's
sum. -/
theorem process_group_coerces_amounts (df : List Rec) (mapping : Option Mapping)
    (is_mtd : Bool) :
    process_group (df.map coerceRec) mapping is_mtd = process_group df mapping is_mtd ∧
    storeKeys (df.map coerceRec) = storeKeys df := by
  refine ⟨?_, storeKeys_coerce df⟩
  unfold process_group
  have h1 : (df.map coerceRec).isEmpty = df.isEmpty := by cases df <;> rfl
  rw [h1, mergedRows_coerce]

/-- C8: the publish step terminates as a skip — with no commit and no
push in its operation trace — when no push token is configured, when the
working directory is not a git repository, and when after a successful
sync the porcelain status shows no `data.json` change; none of these
outcomes is the error outcome. -/
theorem push_skips (env : PushEnv) :
    (env.github_token = none → push_to_github env = (.skippedNoToken, [])) ∧
    (∀ tok, env.github_token = some tok → env.dotGit = false →
      push_to_github env = (.skippedNotRepo, [])) ∧
    (∀ tok u, env.github_token = some tok → env.dotGit = true →
      env.configEmailRes = .ok () → env.configNameRes = .ok () →
      env.repo_url_env = some u → env.remotes = ["origin"] →
      env.setUrlRes = .ok () → env.fetchRes = .ok () →
      env.checkoutRes = .ok () → env.addRes = .ok () →
      strContains env.statusOut "data.json" = false →
      (push_to_github env).1 = .skippedNoChanges ∧
        GitOp.commit ∉ (push_to_github env).2 ∧ GitOp.push ∉ (push_to_github env).2) := by
  obtain ⟨gt, ru, dg, ce, cn, gu, rm, su, ar, fe, dj, co, ad, st, cm, pu⟩ := env
  refine ⟨?_, ?_, ?_⟩
  · intro h
    subst h
    rfl
  · intro tok h1 h2
    subst h1
    subst h2
    rfl
  · intro tok u h1 h2 h3 h4 h5 h6 h7 h8 h9 h10 h11
    subst h1
    subst h2
    subst h3
    subst h4
    subst h5
    subst h6
    subst h7
    subst h8
    subst h9
    subst h10
    refine ⟨?_, ?_, ?_⟩ <;>
      simp [push_to_github, push_after_url, h11]

/-- The concrete environment of the C8 witness: token and repository
present, all sync operations succeed, and the porcelain status reports no
change. -/
def envNoChanges : PushEnv :=
  { github_token := some "tok"
    repo_url_env := some "github.com/u/dailysales.git"
    dotGit := true
    configEmailRes := .ok ()
    configNameRes := .ok ()
    getUrlRes := .ok "github.com/u/dailysales.git"
    remotes := ["origin"]
    setUrlRes := .ok ()
    addRemoteRes := .ok ()
    fetchRes := .ok ()
    dataJson := "{}"
    checkoutRes := .ok ()
    addRes := .ok ()
    statusOut := ""
    commitRes := .ok ()
    pushRes := .ok () }

/-- Witness for C8: in the concrete no-change environment the outcome is
the diff-check skip and the trace holds neither a commit nor a push. -/
theorem push_skips_witness :
    (push_to_github envNoChanges).1 = PushOutcome.skippedNoChanges ∧
    GitOp.commit ∉ (push_to_github envNoChanges).2 ∧
    GitOp.push ∉ (push_to_github envNoChanges).2 :=
  (push_skips envNoChanges).2.2 "tok" "github.com/u/dailysales.git"
    rfl rfl rfl rfl rfl rfl rfl rfl rfl rfl (by decide)

/-- The concrete environment of the C9 theorems: everything up to the
commit succeeds, the porcelain status shows a `data.json` change, and the
commit subprocess fails. -/
def envCommitFail : PushEnv :=
  { github_token := some "tok"
    repo_url_env := some "github.com/u/dailysales.git"
    dotGit := true
    configEmailRes := .ok ()
    configNameRes := .ok ()
    getUrlRes := .ok "github.com/u/dailysales.git"
    remotes := ["origin"]
    setUrlRes := .ok ()
    addRemoteRes := .ok ()
    fetchRes := .ok ()
    dataJson := "{}"
    checkoutRes := .ok ()
    addRes := .ok ()
    statusOut := " M data.json"
    commitRes := .error "commit failed"
    pushRes := .ok () }

/-- C9 counterexample: with the commit subprocess failing, the failure is
caught and logged inside `push_to_github` — the outcome is
`caughtLogged`, and no error is raised to the caller, contradicting the
claim that a `PublishError` surfaces. -/
theorem push_error_not_surfaced_cex :
    (push_to_github envCommitFail).1 = PushOutcome.caughtLogged "commit failed" ∧
    ¬ ∃ msg, (push_to_github envCommitFail).1 = PushOutcome.raised msg := by
  have h1 : (push_to_github envCommitFail).1 = PushOutcome.caughtLogged "commit failed" := by
    decide
  refine ⟨h1, ?_⟩
  rintro ⟨msg, hmsg⟩
  rw [h1] at hmsg
  exact PushOutcome.noConfusion hmsg

/-- The run reaches the sync sequence with a remote URL in hand: either
`REPO_URL` is set, or it is unset and `git remote get-url origin`
succeeded. -/
def urlResolved (env : PushEnv) : Prop :=
  (∃ u, env.repo_url_env = some u) ∨
  (env.repo_url_env = none ∧ ∃ url, env.getUrlRes = .ok url)

/-- The remote-configuration step (`git remote set-url` when `origin`
already exists, `git remote add` otherwise) succeeded. -/
def remoteStepOk (env : PushEnv) : Prop :=
  (if env.remotes.contains "origin" then env.setUrlRes else env.addRemoteRes) = .ok ()

/-- C9 amended: a failing checked git operation never surfaces an error
to the caller and is never retried (it runs exactly once).  The
`git remote get-url origin` probe — run only when `REPO_URL` is unset —
fails into the inner handler, which logs a generic message and returns
without committing or pushing (`skippedNoUrl`); a failure of any other
checked git operation falls into the outer handler, which logs the
underlying command's failure reason and returns normally
(`caughtLogged`).  Stated for every checked operation, on both
URL-resolution paths and both remote-configuration paths. -/
theorem push_catches_git_failures (env : PushEnv) (tok m : String)
    (h1 : env.github_token = some tok) (h2 : env.dotGit = true) :
    (env.configEmailRes = .error m →
      (push_to_github env).1 = .caughtLogged m ∧
      (push_to_github env).2.count GitOp.configEmail = 1) ∧
    (env.configEmailRes = .ok () → env.configNameRes = .error m →
      (push_to_github env).1 = .caughtLogged m ∧
      (push_to_github env).2.count GitOp.configName = 1) ∧
    (env.configEmailRes = .ok () → env.configNameRes = .ok () →
      env.repo_url_env = none → env.getUrlRes = .error m →
      (push_to_github env).1 = .skippedNoUrl ∧
      (push_to_github env).2.count GitOp.getUrl = 1 ∧
      GitOp.commit ∉ (push_to_github env).2 ∧ GitOp.push ∉ (push_to_github env).2) ∧
    (env.configEmailRes = .ok () → env.configNameRes = .ok () → urlResolved env →
      env.remotes.contains "origin" = true → env.setUrlRes = .error m →
      (push_to_github env).1 = .caughtLogged m ∧
      (push_to_github env).2.count GitOp.setUrl = 1) ∧
    (env.configEmailRes = .ok () → env.configNameRes = .ok () → urlResolved env →
      env.remotes.contains "origin" = false → env.addRemoteRes = .error m →
      (push_to_github env).1 = .caughtLogged m ∧
      (push_to_github env).2.count GitOp.addRemote = 1) ∧
    (env.configEmailRes = .ok () → env.configNameRes = .ok () → urlResolved env →
      remoteStepOk env → env.fetchRes = .error m →
      (push_to_github env).1 = .caughtLogged m ∧
      (push_to_github env).2.count GitOp.fetchOrigin = 1) ∧
    (env.configEmailRes = .ok () → env.configNameRes = .ok () → urlResolved env →
      remoteStepOk env → env.fetchRes = .ok () → env.checkoutRes = .error m →
      (push_to_github env).1 = .caughtLogged m ∧
      (push_to_github env).2.count GitOp.checkout = 1) ∧
    (env.configEmailRes = .ok () → env.configNameRes = .ok () → urlResolved env →
      remoteStepOk env → env.fetchRes = .ok () → env.checkoutRes = .ok () →
      env.addRes = .error m →
      (push_to_github env).1 = .caughtLogged m ∧
      (push_to_github env).2.count GitOp.add = 1) ∧
    (env.configEmailRes = .ok () → env.configNameRes = .ok () → urlResolved env →
      remoteStepOk env → env.fetchRes = .ok () → env.checkoutRes = .ok () →
      env.addRes = .ok () → strContains env.statusOut "data.json" = true →
      env.commitRes = .error m →
      (push_to_github env).1 = .caughtLogged m ∧
      (push_to_github env).2.count GitOp.commit = 1) ∧
    (env.configEmailRes = .ok () → env.configNameRes = .ok () → urlResolved env →
      remoteStepOk env → env.fetchRes = .ok () → env.checkoutRes = .ok () →
      env.addRes = .ok () → strContains env.statusOut "data.json" = true →
      env.commitRes = .ok () → env.pushRes = .error m →
      (push_to_github env).1 = .caughtLogged m ∧
      (push_to_github env).2.count GitOp.push = 1) := by
  obtain ⟨gt, ru, dg, ce, cn, gu, rm, su, ar, fe, dj, co, ad, st, cm, pu⟩ := env
  simp only at h1 h2
  subst h1
  subst h2
  refine ⟨?_, ?_, ?_, ?_, ?_, ?_, ?_, ?_, ?_, ?_⟩
  · intro ha
    subst_eqs
    simp_all [push_to_github, push_after_url, List.count_cons]
  · intro ha hb
    subst_eqs
    simp_all [push_to_github, push_after_url, List.count_cons]
  · intro ha hb hc hd
    subst_eqs
    simp_all [push_to_github, push_after_url, List.count_cons]
  · intro ha hb hurl hc hd
    subst_eqs
    rcases hurl with ⟨u, hu⟩ | ⟨hn, url, hg2⟩ <;> subst_eqs <;>
      simp_all [push_to_github, push_after_url, List.count_cons]
  · intro ha hb hurl hc hd
    subst_eqs
    rcases hurl with ⟨u, hu⟩ | ⟨hn, url, hg2⟩ <;> subst_eqs <;>
      simp_all [push_to_github, push_after_url, List.count_cons]
  · intro ha hb hurl hro he
    subst_eqs
    rcases hurl with ⟨u, hu⟩ | ⟨hn, url, hg2⟩ <;> subst_eqs <;>
      by_cases hc : rm.contains "origin" = true <;>
        simp_all [push_to_github, push_after_url, remoteStepOk, List.count_cons]
  · intro ha hb hurl hro he hf
    subst_eqs
    rcases hurl with ⟨u, hu⟩ | ⟨hn, url, hg2⟩ <;> subst_eqs <;>
      by_cases hc : rm.contains "origin" = true <;>
        simp_all [push_to_github, push_after_url, remoteStepOk, List.count_cons]
  · intro ha hb hurl hro he hf hg
    subst_eqs
    rcases hurl with ⟨u, hu⟩ | ⟨hn, url, hg2⟩ <;> subst_eqs <;>
      by_cases hc : rm.contains "origin" = true <;>
        simp_all [push_to_github, push_after_url, remoteStepOk, List.count_cons]
  · intro ha hb hurl hro he hf hg hh hi
    subst_eqs
    rcases hurl with ⟨u, hu⟩ | ⟨hn, url, hg2⟩ <;> subst_eqs <;>
      by_cases hc : rm.contains "origin" = true <;>
        simp_all [push_to_github, push_after_url, remoteStepOk, List.count_cons]
  · intro ha hb hurl hro he hf hg hh hi hj
    subst_eqs
    rcases hurl with ⟨u, hu⟩ | ⟨hn, url, hg2⟩ <;> subst_eqs <;>
      by_cases hc : rm.contains "origin" = true <;>
        simp_all [push_to_github, push_after_url, remoteStepOk, List.count_cons]

/-- Witness for C9 (amended): in the concrete commit-failure environment
the outcome is the logged catch with the commit run exactly once. -/
theorem push_catches_git_failures_witness :
    (push_to_github envCommitFail).1 = PushOutcome.caughtLogged "commit failed" ∧
    (push_to_github envCommitFail).2.count GitOp.commit = 1 :=
  (push_catches_git_failures envCommitFail "tok" "commit failed"
      rfl rfl).2.2.2.2.2.2.2.2.1
    rfl rfl (Or.inl ⟨"github.com/u/dailysales.git", rfl⟩) rfl rfl rfl rfl
    (by decide) rfl

end DailySales
